import Mathlib

/-!
Shallow embedding of the rtps-rs wire-format core: primitive codecs,
fragment-number sets, time and duration conversions, and the stateful
message-receiver state machine from `src/messages/receiver.rs`.

Bytes are modelled as natural numbers (values 0..255); byte buffers as
`List Nat`.  Machine integers are `Nat`/`Int` with explicit `% 2^w`
wrapping where the Rust code casts.  Fallible reads return `Option`.
-/

set_option maxRecDepth 10000

namespace Rtps

/-- The speedy serialization context: byte order for multi-byte scalars. -/
inductive Endianness where
  | littleEndian
  | bigEndian
deriving DecidableEq

/-- `writer.write_u8`: emits one byte, independent of the endianness context. -/
def writeU8 (b : Nat) : List Nat := [b % 256]

/-- `writer.write_u16`: two bytes in the context's byte order. -/
def writeU16 (e : Endianness) (n : Nat) : List Nat :=
  match e with
  | .littleEndian => [n % 256, n / 256 % 256]
  | .bigEndian => [n / 256 % 256, n % 256]

/-- `writer.write_u32`: four bytes in the context's byte order. -/
def writeU32 (e : Endianness) (n : Nat) : List Nat :=
  match e with
  | .littleEndian => [n % 256, n / 2 ^ 8 % 256, n / 2 ^ 16 % 256, n / 2 ^ 24 % 256]
  | .bigEndian => [n / 2 ^ 24 % 256, n / 2 ^ 16 % 256, n / 2 ^ 8 % 256, n % 256]

/-- Value of two bytes under a byte order. -/
def u16FromBytes (e : Endianness) (b0 b1 : Nat) : Nat :=
  match e with
  | .littleEndian => b0 + 256 * b1
  | .bigEndian => 256 * b0 + b1

/-- Value of four bytes under a byte order. -/
def u32FromBytes (e : Endianness) (b0 b1 b2 b3 : Nat) : Nat :=
  match e with
  | .littleEndian => b0 + 2 ^ 8 * b1 + 2 ^ 16 * b2 + 2 ^ 24 * b3
  | .bigEndian => 2 ^ 24 * b0 + 2 ^ 16 * b1 + 2 ^ 8 * b2 + b3

/-- Reinterpret an unsigned 32-bit value as the signed `i32` it encodes. -/
def i32OfU32 (n : Nat) : Int :=
  if n % 2 ^ 32 < 2 ^ 31 then ((n % 2 ^ 32 : Nat) : Int) else ((n % 2 ^ 32 : Nat) : Int) - 2 ^ 32

/-- Rust `as i32` cast of an unsigned integer (two's-complement wrap). -/
def i32Cast (n : Nat) : Int := i32OfU32 n

/-- Rust `as u64` cast of a signed integer (two's-complement wrap). -/
def u64Cast (i : Int) : Nat := (i % 2 ^ 64).toNat

/-- `reader.read_u8`. -/
def readU8 : List Nat → Option (Nat × List Nat)
  | [] => none
  | b :: rest => some (b, rest)

/-- `reader.read_u16` under the context's byte order. -/
def readU16 (e : Endianness) : List Nat → Option (Nat × List Nat)
  | b0 :: b1 :: rest => some (u16FromBytes e b0 b1, rest)
  | _ => none

/-- `reader.read_u32` under the context's byte order. -/
def readU32 (e : Endianness) : List Nat → Option (Nat × List Nat)
  | b0 :: b1 :: b2 :: b3 :: rest =>
      some (u32FromBytes e b0 b1 b2 b3, rest)
  | _ => none

/-- `reader.read_i32`: a `u32` reinterpreted as signed. -/
def readI32 (e : Endianness) (bs : List Nat) : Option (Int × List Nat) :=
  (readU32 e bs).map (fun p => (i32OfU32 p.1, p.2))

/-- Read `n` raw bytes (a sequence of `read_u8` calls). -/
def readBytes (n : Nat) (bs : List Nat) : Option (List Nat × List Nat) :=
  if n ≤ bs.length then some (bs.take n, bs.drop n) else none

/-- `BytesMut::split_to(n)`: panics (`none`) when fewer than `n` bytes remain. -/
def splitTo (n : Nat) (bs : List Nat) : Option (List Nat × List Nat) :=
  if n ≤ bs.length then some (bs.take n, bs.drop n) else none

/-- `ProtocolVersion_t` from `src/messages/protocol_version.rs` (declared by the
spec as two bytes, major then minor). -/
structure ProtocolVersion_t where
  major : Nat
  minor : Nat
deriving DecidableEq

def ProtocolVersion_t.PROTOCOLVERSION : ProtocolVersion_t := ⟨2, 4⟩

def ProtocolVersion_t.PROTOCOLVERSION_2_1 : ProtocolVersion_t := ⟨2, 1⟩

/-- Read a protocol version: major byte then minor byte. -/
def readProtocolVersion (bs : List Nat) : Option (ProtocolVersion_t × List Nat) :=
  match bs with
  | b0 :: b1 :: rest => some (⟨b0, b1⟩, rest)
  | _ => none

/-- `VendorId_t` from `src/messages/vendor_id.rs`: a two-byte array. -/
structure VendorId_t where
  vendorId : List Nat
deriving DecidableEq

def VendorId_t.VENDOR_UNKNOWN : VendorId_t := ⟨[0, 0]⟩

/-- `VendorId_t::write_to`: each byte written with `write_u8`, in declaration
order, for any endianness context. -/
def VendorId_t.writeTo (_e : Endianness) (v : VendorId_t) : List Nat :=
  (v.vendorId.map writeU8).flatten

/-- `VendorId_t::read_from`: two `read_u8` calls. -/
def readVendorId (bs : List Nat) : Option (VendorId_t × List Nat) :=
  (readBytes 2 bs).map (fun p => (⟨p.1⟩, p.2))

/-- `GuidPrefix_t` from `src/structure/guid_prefix.rs`: a 12-byte array. -/
structure GuidPrefix_t where
  entityKey : List Nat
deriving DecidableEq

def GuidPrefix_t.GUIDPREFIX_UNKNOWN : GuidPrefix_t := ⟨List.replicate 12 0⟩

/-- `GuidPrefix_t::write_to`: each byte written with `write_u8`, in declaration
order, for any endianness context. -/
def GuidPrefix_t.writeTo (_e : Endianness) (g : GuidPrefix_t) : List Nat :=
  (g.entityKey.map writeU8).flatten

/-- `GuidPrefix_t::read_from`: twelve `read_u8` calls. -/
def readGuidPrefix (bs : List Nat) : Option (GuidPrefix_t × List Nat) :=
  (readBytes 12 bs).map (fun p => (⟨p.1⟩, p.2))

/-- `EntityId_t` from `src/structure/entity_id.rs`: three-byte key plus a kind
byte. -/
structure EntityId_t where
  entityKey : List Nat
  entityKind : Nat
deriving DecidableEq

def EntityId_t.ENTITYID_UNKNOWN : EntityId_t := ⟨[0, 0, 0], 0⟩

def EntityId_t.ENTITYID_SEDP_BUILTIN_SUBSCRIPTIONS_WRITER : EntityId_t :=
  ⟨[0x00, 0x00, 0x04], 0xC2⟩

def EntityId_t.ENTITYID_SEDP_BUILTIN_SUBSCRIPTIONS_READER : EntityId_t :=
  ⟨[0x00, 0x00, 0x04], 0xC7⟩

/-- `EntityId_t::write_to`: the three key bytes then the kind byte, all via
`write_u8`, for any endianness context. -/
def EntityId_t.writeTo (_e : Endianness) (v : EntityId_t) : List Nat :=
  (v.entityKey.map writeU8).flatten ++ writeU8 v.entityKind

/-- `EntityId_t::read_from`: four `read_u8` calls. -/
def readEntityId (bs : List Nat) : Option (EntityId_t × List Nat) :=
  match bs with
  | b0 :: b1 :: b2 :: b3 :: rest =>
      some (⟨[b0, b1, b2], b3⟩, rest)
  | _ => none

/-- claim C6: serializing an `EntityId_t`, a `GuidPrefix_t` or a `VendorId_t`
under little-endian produces exactly the bytes produced under big-endian: the
`write_to` implementations only call `write_u8` on the declared bytes in
declaration order and never reverse them. -/
theorem byte_array_codecs_endianness_invariant :
    (∀ v : EntityId_t, EntityId_t.writeTo .littleEndian v = EntityId_t.writeTo .bigEndian v) ∧
    (∀ g : GuidPrefix_t, GuidPrefix_t.writeTo .littleEndian g = GuidPrefix_t.writeTo .bigEndian g) ∧
    (∀ v : VendorId_t, VendorId_t.writeTo .littleEndian v = VendorId_t.writeTo .bigEndian v) :=
  ⟨fun _ => rfl, fun _ => rfl, fun _ => rfl⟩

/-- `Time_t` from `src/structure/time.rs`: NTP representation,
time = seconds + fraction / 2^32. -/
structure Time_t where
  seconds : Int
  fraction : Nat
deriving DecidableEq

def Time_t.TIME_ZERO : Time_t := ⟨0, 0⟩

def Time_t.TIME_INVALID : Time_t := ⟨-1, 0xFFFFFFFF⟩

def Time_t.TIME_INFINITE : Time_t := ⟨0x7FFFFFFF, 0xFFFFFFFF⟩

/-- Derived speedy `Readable` for `Time_t`: an `i32` then a `u32`. -/
def readTime (e : Endianness) (bs : List Nat) : Option (Time_t × List Nat) := do
  let (s, r1) ← readI32 e bs
  let (f, r2) ← readU32 e r1
  some (⟨s, f⟩, r2)

def NANOS_PER_SEC : Nat := 1000000000

/-- A wallclock `SystemTime` at or after the Unix epoch, as the duration since
the epoch: whole seconds plus a sub-second nanosecond count below 10^9. -/
structure SysTime where
  secs : Nat
  nanos : Nat
deriving DecidableEq

/-- `From<SystemTime> for Time_t` (`src/structure/time.rs` lines 34-47):
seconds is `as_secs() as i32`, fraction is `(nanos << 32) / NANOS_PER_SEC`
truncated to `u32`. -/
def Time_t.fromSysTime (st : SysTime) : Time_t :=
  ⟨i32Cast st.secs, st.nanos * 2 ^ 32 / NANOS_PER_SEC % 2 ^ 32⟩

/-- `TryFrom<Time_t> for SystemTime` (`src/structure/time.rs` lines 49-61):
fails on `TIME_INVALID`; otherwise seconds is `seconds as u64` and the
nanosecond count is `(fraction * NANOS_PER_SEC) >> 32`. -/
def SysTime.fromTime (t : Time_t) : Option SysTime :=
  if t = Time_t.TIME_INVALID then none
  else some ⟨u64Cast t.seconds, t.fraction * NANOS_PER_SEC / 2 ^ 32⟩

/-- The wrapping `as i32` cast is the identity below `2^31`. -/
lemma i32Cast_of_lt (n : Nat) (h : n < 2 ^ 31) : i32Cast n = (n : Int) := by
  simp only [i32Cast, i32OfU32]
  rw [Nat.mod_eq_of_lt (by omega), if_pos h]

/-- Fraction round trip `f ↦ (f * 10^9 / 2^32) ↦ back` loses at most five
fractional units. -/
lemma frac_roundtrip_bounds (f : Nat) (hf : f < 2 ^ 32) :
    f * NANOS_PER_SEC / 2 ^ 32 * 2 ^ 32 / NANOS_PER_SEC % 2 ^ 32 ≤ f ∧
    f ≤ f * NANOS_PER_SEC / 2 ^ 32 * 2 ^ 32 / NANOS_PER_SEC % 2 ^ 32 + 5 := by
  have p32 : (2 : Nat) ^ 32 = 4294967296 := by norm_num
  have e1 := Nat.div_add_mod (f * NANOS_PER_SEC) (2 ^ 32)
  have l1 : f * NANOS_PER_SEC % 2 ^ 32 < 2 ^ 32 := Nat.mod_lt _ (by norm_num)
  have e2 := Nat.div_add_mod (f * NANOS_PER_SEC / 2 ^ 32 * 2 ^ 32) NANOS_PER_SEC
  have l2 : f * NANOS_PER_SEC / 2 ^ 32 * 2 ^ 32 % NANOS_PER_SEC < NANOS_PER_SEC :=
    Nat.mod_lt _ (by norm_num [NANOS_PER_SEC])
  have hx : f * NANOS_PER_SEC / 2 ^ 32 * 2 ^ 32 / NANOS_PER_SEC ≤ f := by
    simp only [NANOS_PER_SEC, p32] at e1 e2 l1 l2 ⊢
    omega
  have hmod : f * NANOS_PER_SEC / 2 ^ 32 * 2 ^ 32 / NANOS_PER_SEC % 2 ^ 32
      = f * NANOS_PER_SEC / 2 ^ 32 * 2 ^ 32 / NANOS_PER_SEC :=
    Nat.mod_eq_of_lt (lt_of_le_of_lt hx hf)
  rw [hmod]
  refine ⟨hx, ?_⟩
  simp only [NANOS_PER_SEC, p32] at e1 e2 l1 l2 ⊢
  omega

/-- Nanosecond round trip `n ↦ (n * 2^32 / 10^9) ↦ back` loses at most one
nanosecond. -/
lemma nanos_roundtrip_bounds (nanos : Nat) (hns : nanos < NANOS_PER_SEC) :
    nanos * 2 ^ 32 / NANOS_PER_SEC % 2 ^ 32 * NANOS_PER_SEC / 2 ^ 32 ≤ nanos ∧
    nanos ≤ nanos * 2 ^ 32 / NANOS_PER_SEC % 2 ^ 32 * NANOS_PER_SEC / 2 ^ 32 + 1 := by
  have p32 : (2 : Nat) ^ 32 = 4294967296 := by norm_num
  have e0 := Nat.div_add_mod (nanos * 2 ^ 32) NANOS_PER_SEC
  have l0 : nanos * 2 ^ 32 % NANOS_PER_SEC < NANOS_PER_SEC :=
    Nat.mod_lt _ (by norm_num [NANOS_PER_SEC])
  have hq : nanos * 2 ^ 32 / NANOS_PER_SEC < 2 ^ 32 := by
    simp only [NANOS_PER_SEC, p32] at e0 l0 hns ⊢
    omega
  have hmod : nanos * 2 ^ 32 / NANOS_PER_SEC % 2 ^ 32 = nanos * 2 ^ 32 / NANOS_PER_SEC :=
    Nat.mod_eq_of_lt hq
  rw [hmod]
  have e2 := Nat.div_add_mod (nanos * 2 ^ 32 / NANOS_PER_SEC * NANOS_PER_SEC) (2 ^ 32)
  have l2 : nanos * 2 ^ 32 / NANOS_PER_SEC * NANOS_PER_SEC % 2 ^ 32 < 2 ^ 32 :=
    Nat.mod_lt _ (by norm_num)
  simp only [NANOS_PER_SEC, p32] at e0 e2 l0 l2 hns ⊢
  omega


/-- claim C8 counterexample, two concrete failures of the claim as stated.
First, `Time_t {seconds 0, fraction 4}` converts to the wallclock time
exactly at the epoch and back to `Time_t {0, 0}`: the round trip loses 4
fractional units, more than the one unit the claim allows.  Second, the
wallclock time at 2^31 seconds after the epoch wraps through the `as i32`
cast to `Time_t {-2^31, 0}` and back through the `as u64` cast to the
wallclock time at 2^64 - 2^31 seconds: the round trip does not preserve the
seconds of a wallclock time at or after the epoch once the whole-second
count leaves the `i32` range. -/
theorem time_roundtrip_within_one_unit_false :
    ((SysTime.fromTime ⟨0, 4⟩).map Time_t.fromSysTime = some ⟨0, 0⟩ ∧
      ¬((4 : Nat) - (Time_t.mk 0 0).fraction ≤ 1)) ∧
    (Time_t.fromSysTime ⟨2 ^ 31, 0⟩ = ⟨-(2 ^ 31), 0⟩ ∧
      SysTime.fromTime (Time_t.fromSysTime ⟨2 ^ 31, 0⟩) =
        some ⟨2 ^ 64 - 2 ^ 31, 0⟩ ∧
      (2 ^ 64 - 2 ^ 31 : Nat) ≠ 2 ^ 31) := by
  refine ⟨⟨rfl, by decide⟩, ?_, ?_, by decide⟩
  · decide
  · decide

/-- claim C8 (amended): `TIME_INVALID` has no wallclock counterpart, and for
times whose whole-second count lies in the `i32` range (a nonnegative
`Time_t` seconds below 2^31, a wallclock second count below 2^31 — beyond it
the `as i32` / `as u64` casts wrap, see the counterexample) the round trips
preserve the seconds and are lossy only within five fractional units
(5/2^32 s, about 1.2 ns): `Time_t → SystemTime → Time_t` lowers the fraction
by at most 5 units, and `SystemTime → Time_t → SystemTime` lowers the
nanosecond count by at most 1 ns (= 5/2^32 s is an upper bound for both). -/
theorem time_sysTime_roundtrip_bounds :
    SysTime.fromTime Time_t.TIME_INVALID = none ∧
    (∀ (s : Int) (f : Nat), 0 ≤ s → s < 2 ^ 31 → f < 2 ^ 32 →
      ∃ st : SysTime, SysTime.fromTime ⟨s, f⟩ = some st ∧
        (Time_t.fromSysTime st).seconds = s ∧
        (Time_t.fromSysTime st).fraction ≤ f ∧
        f ≤ (Time_t.fromSysTime st).fraction + 5) ∧
    (∀ (secs nanos : Nat), secs < 2 ^ 31 → nanos < NANOS_PER_SEC →
      ∃ st : SysTime, SysTime.fromTime (Time_t.fromSysTime ⟨secs, nanos⟩) = some st ∧
        st.secs = secs ∧ st.nanos ≤ nanos ∧ nanos ≤ st.nanos + 1) := by
  refine ⟨rfl, ?_, ?_⟩
  · intro s f hs h31 hf
    have hne : (⟨s, f⟩ : Time_t) ≠ Time_t.TIME_INVALID := by
      intro h
      have h1 : s = -1 := by
        have := congrArg Time_t.seconds h
        simpa using this
      omega
    refine ⟨⟨u64Cast s, f * NANOS_PER_SEC / 2 ^ 32⟩, ?_, ?_, ?_, ?_⟩
    · simp only [SysTime.fromTime]
      rw [if_neg hne]
    · show i32Cast (u64Cast s) = s
      have hu : u64Cast s = s.toNat := by
        simp only [u64Cast]
        rw [Int.emod_eq_of_lt hs (by omega)]
      rw [hu, i32Cast_of_lt _ (by omega)]
      omega
    · exact (frac_roundtrip_bounds f hf).1
    · exact (frac_roundtrip_bounds f hf).2
  · intro secs nanos h31 hns
    have hsec : i32Cast secs = (secs : Int) := i32Cast_of_lt secs h31
    have hne : Time_t.fromSysTime ⟨secs, nanos⟩ ≠ Time_t.TIME_INVALID := by
      intro h
      have h1 : i32Cast secs = -1 := by
        have := congrArg Time_t.seconds h
        simpa [Time_t.fromSysTime] using this
      rw [hsec] at h1
      omega
    refine ⟨⟨u64Cast (i32Cast secs),
            nanos * 2 ^ 32 / NANOS_PER_SEC % 2 ^ 32 * NANOS_PER_SEC / 2 ^ 32⟩, ?_, ?_, ?_, ?_⟩
    · simp only [SysTime.fromTime]
      rw [if_neg hne]
      rfl
    · show u64Cast (i32Cast secs) = secs
      rw [hsec]
      simp only [u64Cast]
      rw [Int.emod_eq_of_lt (by omega) (by omega)]
      exact Int.toNat_natCast secs
    · exact (nanos_roundtrip_bounds nanos hns).1
    · exact (nanos_roundtrip_bounds nanos hns).2

/-- Witness for `time_sysTime_roundtrip_bounds` at `Time_t {1, 5}` and
wallclock `(1 s, 1 ns)`. -/
theorem time_sysTime_roundtrip_bounds_witness :
    (∃ st : SysTime, SysTime.fromTime ⟨1, 5⟩ = some st ∧
        (Time_t.fromSysTime st).seconds = 1 ∧
        (Time_t.fromSysTime st).fraction ≤ 5 ∧
        5 ≤ (Time_t.fromSysTime st).fraction + 5) ∧
    (∃ st : SysTime, SysTime.fromTime (Time_t.fromSysTime ⟨1, 1⟩) = some st ∧
        st.secs = 1 ∧ st.nanos ≤ 1 ∧ 1 ≤ st.nanos + 1) :=
  ⟨time_sysTime_roundtrip_bounds.2.1 1 5 (by decide) (by decide) (by decide),
   time_sysTime_roundtrip_bounds.2.2 1 1 (by decide) (by decide)⟩

/-- `std::time::Duration`: whole seconds and a sub-second nanosecond count;
`Duration::new` normalizes a nanosecond argument of 10^9 or more. -/
structure StdDuration where
  secs : Nat
  nanos : Nat
deriving DecidableEq

/-- `Duration::new(secs, nanos)`: carries whole seconds out of `nanos`. -/
def StdDuration.new (secs nanos : Nat) : StdDuration :=
  ⟨secs + nanos / NANOS_PER_SEC, nanos % NANOS_PER_SEC⟩

/-- `Duration_t` from `src/structure/duration.rs`: same layout as `Time_t`. -/
structure Duration_t where
  seconds : Int
  fraction : Nat
deriving DecidableEq

/-- `From<Duration> for Duration_t` (`src/structure/duration.rs` lines 26-33):
seconds is `as_secs() as i32`, fraction is `subsec_nanos()` verbatim. -/
def Duration_t.fromStd (d : StdDuration) : Duration_t :=
  ⟨i32Cast d.secs, d.nanos⟩

/-- `From<Duration_t> for Duration` (`src/structure/duration.rs` lines 35-39):
`Duration::new(seconds as u64, fraction)`. -/
def Duration_t.toStd (dt : Duration_t) : StdDuration :=
  StdDuration.new (u64Cast dt.seconds) dt.fraction

/-- claim C10: for a `std::time::Duration` whose whole-second count fits in an
`i32`, the conversion to `Duration_t` stores the sub-second nanosecond count
verbatim in the fraction field (no 2^32 scaling, unlike `Time_t`), and
converting back yields exactly the original duration. -/
theorem duration_roundtrip_exact (secs nanos : Nat)
    (hn : nanos < NANOS_PER_SEC) (hs : secs < 2 ^ 31) :
    (Duration_t.fromStd ⟨secs, nanos⟩).fraction = nanos ∧
    Duration_t.toStd (Duration_t.fromStd ⟨secs, nanos⟩) = ⟨secs, nanos⟩ := by
  refine ⟨rfl, ?_⟩
  have hsec : i32Cast secs = (secs : Int) := by
    simp only [i32Cast, i32OfU32]
    rw [Nat.mod_eq_of_lt (by omega), if_pos (by omega)]
  simp only [Duration_t.toStd, Duration_t.fromStd, StdDuration.new, hsec, u64Cast]
  rw [Int.emod_eq_of_lt (by omega) (by omega), Int.toNat_natCast]
  rw [Nat.div_eq_of_lt hn, Nat.mod_eq_of_lt hn]
  simp

/-- Witness for `duration_roundtrip_exact` at 3 s, 7 ns. -/
theorem duration_roundtrip_exact_witness :
    (Duration_t.fromStd ⟨3, 7⟩).fraction = 7 ∧
    Duration_t.toStd (Duration_t.fromStd ⟨3, 7⟩) = ⟨3, 7⟩ :=
  duration_roundtrip_exact 3 7 (by norm_num [NANOS_PER_SEC]) (by norm_num)

/-- `FragmentNumber_t` from `src/messages/fragment_number.rs` (declared by the
spec as an unsigned 32-bit value). -/
structure FragmentNumber_t where
  value : Nat
deriving DecidableEq

/-- Modelled from the spec: `BitSetRef` (`src/common/bit_set.rs` is not under
`src/`): the bitmap of a ranged bit-set, `num_bits` (its bit
population-capacity, grown in whole 32-bit words) plus the `u32` bitmap words;
offset `o` lives in word `o / 32` at bit `o % 32` (the bit order fixed by the
§8 literal vectors). -/
structure BitSetRef where
  numBits : Nat
  words : List Nat
deriving DecidableEq

/-- `BitSetRef::new()`: the empty bitmap. -/
def BitSetRef.new : BitSetRef := ⟨0, []⟩

/-- Modelled from the spec: inserting offset `o` grows the bitmap to whole
words covering `o` and sets bit `o % 32` of word `o / 32`. -/
def BitSetRef.insert (s : BitSetRef) (o : Nat) : BitSetRef :=
  let w := o / 32
  let padded := s.words ++ List.replicate (w + 1 - s.words.length) 0
  ⟨max s.numBits (32 * (w + 1)), padded.set w (padded.getD w 0 ||| 2 ^ (o % 32))⟩

/-- Modelled from the spec: membership of offset `o` in the bitmap. -/
def BitSetRef.contains (s : BitSetRef) (o : Nat) : Bool :=
  Nat.testBit (s.words.getD (o / 32) 0) (o % 32)

/-- Modelled from the spec: `len()` is the bit population-capacity of the
bitmap (`num_bits`). -/
def BitSetRef.len (s : BitSetRef) : Nat := s.numBits

/-- Speedy `Writable` for `BitSetRef`, modelled from the spec wire format:
`num_bits` as a `u32`, then the bitmap words, each as a `u32`. -/
def BitSetRef.writeTo (e : Endianness) (s : BitSetRef) : List Nat :=
  writeU32 e s.numBits ++ (s.words.map (writeU32 e)).flatten

/-- `FragmentNumberSet_t` from `src/messages/fragment_number_set.rs`:
a fragment-number base plus a bitmap of offsets. -/
structure FragmentNumberSet_t where
  base : FragmentNumber_t
  set : BitSetRef
deriving DecidableEq

/-- `FragmentNumberSet_t::new`: the given base and an empty bitmap. -/
def FragmentNumberSet_t.new (b : FragmentNumber_t) : FragmentNumberSet_t :=
  ⟨b, BitSetRef.new⟩

/-- `FragmentNumberSet_t::is_in_range`:
`fragment_number >= self.base && fragment_number <= self.base + 255` (the
fragment-number ordering and addition are modelled from the spec's plain
arithmetic, `src/messages/fragment_number.rs` being absent from `src/`). -/
def FragmentNumberSet_t.is_in_range (s : FragmentNumberSet_t) (n : FragmentNumber_t) : Prop :=
  s.base.value ≤ n.value ∧ n.value ≤ s.base.value + 255

instance (s : FragmentNumberSet_t) (n : FragmentNumber_t) :
    Decidable (FragmentNumberSet_t.is_in_range s n) :=
  inferInstanceAs (Decidable (_ ∧ _))

/-- `FragmentNumberSet_t::base_offset`: `(fragment_number - self.base).value`. -/
def FragmentNumberSet_t.base_offset (s : FragmentNumberSet_t) (n : FragmentNumber_t) : Nat :=
  n.value - s.base.value

/-- `FragmentNumberSet_t::insert`
(`src/messages/fragment_number_set.rs` lines 19-26): returns whether the
number was in range, inserting its offset into the bitmap when it was. -/
def FragmentNumberSet_t.insert (s : FragmentNumberSet_t) (n : FragmentNumber_t) :
    Bool × FragmentNumberSet_t :=
  if FragmentNumberSet_t.is_in_range s n then
    (true, ⟨s.base, s.set.insert (FragmentNumberSet_t.base_offset s n)⟩)
  else (false, s)

/-- `FragmentNumberSet_t::contains`
(`src/messages/fragment_number_set.rs` lines 28-33). -/
def FragmentNumberSet_t.contains (s : FragmentNumberSet_t) (n : FragmentNumber_t) : Bool :=
  if FragmentNumberSet_t.is_in_range s n then
    s.set.contains (FragmentNumberSet_t.base_offset s n)
  else false

/-- `Validity for FragmentNumberSet_t`
(`src/messages/fragment_number_set.rs` lines 44-48):
`self.base.value >= 1 && 0 < self.set.len() && self.set.len() <= 256`. -/
def FragmentNumberSet_t.valid (s : FragmentNumberSet_t) : Bool :=
  decide (1 ≤ s.base.value) && decide (0 < s.set.len) && decide (s.set.len ≤ 256)

/-- Derived speedy `Writable` for `FragmentNumberSet_t`: the base (a `u32`)
then the bitmap. -/
def FragmentNumberSet_t.writeTo (e : Endianness) (s : FragmentNumberSet_t) : List Nat :=
  writeU32 e s.base.value ++ BitSetRef.writeTo e s.set

/-- After inserting offset `o`, the bitmap contains `o`. -/
lemma BitSetRef.contains_insert_self (s : BitSetRef) (o : Nat) :
    (s.insert o).contains o = true := by
  simp only [BitSetRef.insert, BitSetRef.contains]
  have hlen : o / 32 <
      (s.words ++ List.replicate (o / 32 + 1 - s.words.length) 0).length := by
    simp [List.length_append, List.length_replicate]
    omega
  rw [List.getD_eq_getElem?_getD, List.getElem?_set_eq_of_lt _ hlen]
  simp [Nat.testBit_lor, Nat.testBit_two_pow_self]

/-- claim C4: for every fragment-number set `S` with base `b` and every
fragment number `n`: `S.insert(n)` returns true if and only if
`b ≤ n ≤ b + 255`; after an insert that returned true, `S.contains(n)` is
true; for `n` outside the range the insert leaves `S` unchanged and
`S.contains(n)` stays false. -/
theorem fragment_set_insert_contains_spec (S : FragmentNumberSet_t) (n : FragmentNumber_t) :
    ((S.insert n).1 = true ↔
      (S.base.value ≤ n.value ∧ n.value ≤ S.base.value + 255)) ∧
    ((S.insert n).1 = true → (S.insert n).2.contains n = true) ∧
    (¬(S.base.value ≤ n.value ∧ n.value ≤ S.base.value + 255) →
      (S.insert n).2 = S ∧ S.contains n = false ∧ (S.insert n).2.contains n = false) := by
  by_cases h : FragmentNumberSet_t.is_in_range S n
  · refine ⟨⟨fun _ => h, fun _ => ?_⟩, fun _ => ?_, fun hc => absurd h hc⟩
    · simp [FragmentNumberSet_t.insert, h]
    · simp only [FragmentNumberSet_t.insert, if_pos h]
      have h2 : FragmentNumberSet_t.is_in_range
          ⟨S.base, S.set.insert (FragmentNumberSet_t.base_offset S n)⟩ n := h
      simp only [FragmentNumberSet_t.contains, if_pos h2]
      exact BitSetRef.contains_insert_self _ _
  · refine ⟨⟨fun hins => ?_, fun hr => absurd hr h⟩, fun hins => ?_, fun _ => ?_⟩
    · simp [FragmentNumberSet_t.insert, if_neg h] at hins
    · simp [FragmentNumberSet_t.insert, if_neg h] at hins
    · refine ⟨by simp [FragmentNumberSet_t.insert, if_neg h], ?_, ?_⟩
      · simp [FragmentNumberSet_t.contains, if_neg h]
      · simp [FragmentNumberSet_t.insert, FragmentNumberSet_t.contains, if_neg h]

/-- Witness for `fragment_set_insert_contains_spec` at the empty set with
base 10 and fragment number 10 (in range, so the insert returns true and the
inserted number is contained). -/
theorem fragment_set_insert_contains_spec_witness :
    ((FragmentNumberSet_t.new ⟨10⟩).insert ⟨10⟩).1 = true ∧
    ((FragmentNumberSet_t.new ⟨10⟩).insert ⟨10⟩).2.contains ⟨10⟩ = true := by
  have h := fragment_set_insert_contains_spec (FragmentNumberSet_t.new ⟨10⟩) ⟨10⟩
  have h1 : ((FragmentNumberSet_t.new ⟨10⟩).insert ⟨10⟩).1 = true :=
    h.1.mpr (by decide)
  exact ⟨h1, h.2.1 h1⟩

/-- claim C5: `FragmentNumberSet_t::valid` returns true exactly when the base
is at least 1 and the bit population-capacity of the bitmap is between 1 and
256 inclusive. -/
theorem fragment_set_valid_iff (S : FragmentNumberSet_t) :
    S.valid = true ↔
      (1 ≤ S.base.value ∧ 1 ≤ BitSetRef.len S.set ∧ BitSetRef.len S.set ≤ 256) := by
  simp only [FragmentNumberSet_t.valid, Bool.and_eq_true, decide_eq_true_eq]
  omega

/-- Witness for `fragment_set_valid_iff`: a set with base 1 whose bitmap holds
one word is valid. -/
theorem fragment_set_valid_iff_witness :
    FragmentNumberSet_t.valid ⟨⟨1⟩, ⟨32, [2]⟩⟩ = true :=
  (fragment_set_valid_iff ⟨⟨1⟩, ⟨32, [2]⟩⟩).mpr (by decide)

/-- The fragment-number set of the `fragment_number_set_manual` test vector
(`src/messages/fragment_number_set.rs` lines 105-127): base 0x10000000 with
0x10000001, 0x10000003, 0x10000004, 0x10000006, 0x10000008, 0x1000000A and
0x1000000D inserted. -/
def fragmentNumberSetManual : FragmentNumberSet_t :=
  ((((((((FragmentNumberSet_t.new ⟨268435456⟩).insert ⟨268435457⟩).2.insert
      ⟨268435459⟩).2.insert ⟨268435460⟩).2.insert ⟨268435462⟩).2.insert
      ⟨268435464⟩).2.insert ⟨268435466⟩).2.insert ⟨268435469⟩).2

/-- claim C7: serializing the manually built fragment-number set under
little-endian yields exactly the 12 bytes
`00 00 00 10 20 00 00 00 5A 25 00 00`: base as 4 bytes LE, `num_bits` = 32
as LE, one bitmap word 0x0000255A as LE. -/
theorem fragment_number_set_manual_le_bytes :
    FragmentNumberSet_t.writeTo .littleEndian fragmentNumberSetManual =
      [0x00, 0x00, 0x00, 0x10, 0x20, 0x00, 0x00, 0x00, 0x5A, 0x25, 0x00, 0x00] := by
  decide

/-- `SequenceNumber_t` from `src/structure/sequence_number.rs`: a signed
64-bit value transmitted as `{high: i32, low: u32}`, value
`(high << 32) | low`. -/
structure SequenceNumber_t where
  value : Int
deriving DecidableEq

/-- Read a sequence number: `i32` high half then `u32` low half. -/
def readSequenceNumber (e : Endianness) (bs : List Nat) :
    Option (SequenceNumber_t × List Nat) := do
  let (hi, r1) ← readI32 e bs
  let (lo, r2) ← readU32 e r1
  some (⟨hi * 2 ^ 32 + lo⟩, r2)

/-- `Count_t` from `src/structure/count.rs` (declared by the spec as a signed
32-bit counter). -/
structure Count_t where
  value : Int
deriving DecidableEq

/-- Read a count: one `i32`. -/
def readCount (e : Endianness) (bs : List Nat) : Option (Count_t × List Nat) :=
  (readI32 e bs).map (fun p => (⟨p.1⟩, p.2))

/-- Read `k` bitmap words, each a `u32`. -/
def readWords (e : Endianness) : Nat → List Nat → Option (List Nat × List Nat)
  | 0, bs => some ([], bs)
  | k + 1, bs => do
      let (w, r1) ← readU32 e bs
      let (ws, r2) ← readWords e k r1
      some (w :: ws, r2)

/-- Speedy `Readable` for `BitSetRef`, modelled from the spec wire format:
`num_bits` (accepted up to 256, the 8-word cap), then the bitmap words,
rounding `num_bits` up to whole words. -/
def readBitSet (e : Endianness) (bs : List Nat) : Option (BitSetRef × List Nat) := do
  let (n, r1) ← readU32 e bs
  if n ≤ 256 then
    let (ws, r2) ← readWords e ((n + 31) / 32) r1
    some (⟨n, ws⟩, r2)
  else none

/-- `SequenceNumberSet_t` from `src/structure/sequence_number_set.rs`: a
sequence-number base plus a bitmap of offsets. -/
structure SequenceNumberSet_t where
  base : SequenceNumber_t
  set : BitSetRef
deriving DecidableEq

/-- Read a sequence-number set: the base then the bitmap. -/
def readSequenceNumberSet (e : Endianness) (bs : List Nat) :
    Option (SequenceNumberSet_t × List Nat) := do
  let (b, r1) ← readSequenceNumber e bs
  let (s, r2) ← readBitSet e r1
  some (⟨b, s⟩, r2)

/-- Read a fragment number: one `u32`. -/
def readFragmentNumber (e : Endianness) (bs : List Nat) :
    Option (FragmentNumber_t × List Nat) :=
  (readU32 e bs).map (fun p => (⟨p.1⟩, p.2))

/-- Read a fragment-number set: the base then the bitmap. -/
def readFragmentNumberSet (e : Endianness) (bs : List Nat) :
    Option (FragmentNumberSet_t × List Nat) := do
  let (b, r1) ← readFragmentNumber e bs
  let (s, r2) ← readBitSet e r1
  some (⟨b, s⟩, r2)

/-- `AckNack` from `src/messages/ack_nack.rs` (declared by the spec: reader
id, writer id, reader sequence-number state, count, in wire order). -/
structure AckNack where
  reader_id : EntityId_t
  writer_id : EntityId_t
  reader_sn_state : SequenceNumberSet_t
  count : Count_t
deriving DecidableEq

/-- Derived `Readable` for `AckNack`: its fields in declaration order. -/
def readAckNack (e : Endianness) (bs : List Nat) : Option (AckNack × List Nat) := do
  let (rid, r1) ← readEntityId bs
  let (wid, r2) ← readEntityId r1
  let (sns, r3) ← readSequenceNumberSet e r2
  let (c, r4) ← readCount e r3
  some (⟨rid, wid, sns, c⟩, r4)

/-- `Gap` from `src/messages/gap.rs` (declared by the spec: reader id, writer
id, gap start, gap list). -/
structure Gap where
  reader_id : EntityId_t
  writer_id : EntityId_t
  gap_start : SequenceNumber_t
  gap_list : SequenceNumberSet_t
deriving DecidableEq

/-- Derived `Readable` for `Gap`: its fields in declaration order. -/
def readGap (e : Endianness) (bs : List Nat) : Option (Gap × List Nat) := do
  let (rid, r1) ← readEntityId bs
  let (wid, r2) ← readEntityId r1
  let (gs, r3) ← readSequenceNumber e r2
  let (gl, r4) ← readSequenceNumberSet e r3
  some (⟨rid, wid, gs, gl⟩, r4)

/-- `Heartbeat` from `src/messages/heartbeat.rs` (declared by the spec:
reader id, writer id, first sn, last sn, count). -/
structure Heartbeat where
  reader_id : EntityId_t
  writer_id : EntityId_t
  first_sn : SequenceNumber_t
  last_sn : SequenceNumber_t
  count : Count_t
deriving DecidableEq

/-- Derived `Readable` for `Heartbeat`: its fields in declaration order. -/
def readHeartbeat (e : Endianness) (bs : List Nat) : Option (Heartbeat × List Nat) := do
  let (rid, r1) ← readEntityId bs
  let (wid, r2) ← readEntityId r1
  let (fs, r3) ← readSequenceNumber e r2
  let (ls, r4) ← readSequenceNumber e r3
  let (c, r5) ← readCount e r4
  some (⟨rid, wid, fs, ls, c⟩, r5)

/-- `HeartbeatFrag` from `src/messages/heartbeat_frag.rs` (declared by the
spec: reader id, writer id, writer sn, last fragment number, count). -/
structure HeartbeatFrag where
  reader_id : EntityId_t
  writer_id : EntityId_t
  writer_sn : SequenceNumber_t
  last_fragment_num : FragmentNumber_t
  count : Count_t
deriving DecidableEq

/-- Derived `Readable` for `HeartbeatFrag`: its fields in declaration order. -/
def readHeartbeatFrag (e : Endianness) (bs : List Nat) :
    Option (HeartbeatFrag × List Nat) := do
  let (rid, r1) ← readEntityId bs
  let (wid, r2) ← readEntityId r1
  let (ws, r3) ← readSequenceNumber e r2
  let (lf, r4) ← readFragmentNumber e r3
  let (c, r5) ← readCount e r4
  some (⟨rid, wid, ws, lf, c⟩, r5)

/-- `NackFrag` from `src/messages/nack_frag.rs`: reader id, writer id, writer
sn, fragment-number state, count. -/
structure NackFrag where
  reader_id : EntityId_t
  writer_id : EntityId_t
  writer_sn : SequenceNumber_t
  fragment_number_state : FragmentNumberSet_t
  count : Count_t
deriving DecidableEq

/-- Derived `Readable` for `NackFrag`: its fields in declaration order. -/
def readNackFrag (e : Endianness) (bs : List Nat) : Option (NackFrag × List Nat) := do
  let (rid, r1) ← readEntityId bs
  let (wid, r2) ← readEntityId r1
  let (ws, r3) ← readSequenceNumber e r2
  let (fs, r4) ← readFragmentNumberSet e r3
  let (c, r5) ← readCount e r4
  some (⟨rid, wid, ws, fs, c⟩, r5)

/-- `InfoSource` body (`src/messages/info_source.rs` is absent from `src/`;
the in-`src/` test `single_gap_with_info_src` serializes it as protocol
version, vendor id and guid prefix, 16 bytes): returns the three fields. -/
def readInfoSource (e : Endianness) (bs : List Nat) :
    Option ((ProtocolVersion_t × VendorId_t × GuidPrefix_t) × List Nat) := do
  let (pv, r1) ← readProtocolVersion bs
  let (vid, r2) ← readVendorId r1
  let (gp, r3) ← readGuidPrefix r2
  let _ := e
  some ((pv, vid, gp), r3)

/-- `Locator_t` from `src/structure/locator.rs` (declared by the spec:
`{kind: i32, port: u32, address: 16 bytes}`). -/
structure Locator_t where
  kind : Int
  port : Nat
  address : List Nat
deriving DecidableEq

def Locator_t.LOCATOR_KIND_INVALID : Int := -1

def Locator_t.LOCATOR_PORT_INVALID : Nat := 0

def Locator_t.LOCATOR_ADDRESS_INVALID : List Nat := List.replicate 16 0

def Locator_t.LOCATOR_INVALID : Locator_t :=
  ⟨Locator_t.LOCATOR_KIND_INVALID, Locator_t.LOCATOR_PORT_INVALID,
   Locator_t.LOCATOR_ADDRESS_INVALID⟩

/-- Read one locator: `i32` kind, `u32` port, 16 address bytes. -/
def readLocator (e : Endianness) (bs : List Nat) : Option (Locator_t × List Nat) := do
  let (k, r1) ← readI32 e bs
  let (p, r2) ← readU32 e r1
  let (a, r3) ← readBytes 16 r2
  some (⟨k, p, a⟩, r3)

/-- Read `k` locators in sequence. -/
def readLocators (e : Endianness) : Nat → List Nat → Option (List Locator_t × List Nat)
  | 0, bs => some ([], bs)
  | k + 1, bs => do
      let (l, r1) ← readLocator e bs
      let (ls, r2) ← readLocators e k r1
      some (l :: ls, r2)

/-- `LocatorList_t::read_with_length_from_buffer_with_ctx`, modelled from the
spec: a `u32` element count, then that many locators; also reports the number
of bytes consumed. -/
def readLocatorListWithLength (e : Endianness) (bs : List Nat) :
    Option (List Locator_t × Nat) := do
  let (n, r1) ← readU32 e bs
  let (ls, r2) ← readLocators e n r1
  some (ls, bs.length - r2.length)

/-- `SubmessageKind` from `src/messages/submessage_kind.rs`, with the numeric
values fixed by the spec (`INFO_REPLAY` is the source's spelling of
INFO_REPLY, kind 0x0F). -/
inductive SubmessageKind where
  | PAD
  | ACKNACK
  | HEARTBEAT
  | GAP
  | INFO_TS
  | INFO_SRC
  | INFO_REPLAY
  | INFO_DST
  | NACK_FRAG
  | HEARTBEAT_FRAG
  | DATA
  | DATA_FRAG
  | UNKNOWN (id : Nat)
deriving DecidableEq

/-- Map a submessage-kind byte to its kind: PAD=0x01, ACKNACK=0x06,
HEARTBEAT=0x07, GAP=0x08, INFO_TS=0x09, INFO_SRC=0x0C, INFO_DST=0x0E,
INFO_REPLY=0x0F, NACK_FRAG=0x12, HEARTBEAT_FRAG=0x13, DATA=0x15,
DATA_FRAG=0x16. -/
def SubmessageKind.ofByte (b : Nat) : SubmessageKind :=
  if b = 0x01 then .PAD
  else if b = 0x06 then .ACKNACK
  else if b = 0x07 then .HEARTBEAT
  else if b = 0x08 then .GAP
  else if b = 0x09 then .INFO_TS
  else if b = 0x0C then .INFO_SRC
  else if b = 0x0E then .INFO_DST
  else if b = 0x0F then .INFO_REPLAY
  else if b = 0x12 then .NACK_FRAG
  else if b = 0x13 then .HEARTBEAT_FRAG
  else if b = 0x15 then .DATA
  else if b = 0x16 then .DATA_FRAG
  else .UNKNOWN b

/-- `SubmessageFlag` from `src/messages/submessage_flag.rs`: the flag byte. -/
structure SubmessageFlag where
  flags : Nat
deriving DecidableEq

/-- Bit 0 of the flag byte selects the body's byte order: 1 = little-endian. -/
def SubmessageFlag.endianness_flag (f : SubmessageFlag) : Endianness :=
  if f.flags % 2 = 1 then .littleEndian else .bigEndian

/-- `is_flag_set`: test a mask against the flag byte. -/
def SubmessageFlag.is_flag_set (f : SubmessageFlag) (bit : Nat) : Bool :=
  f.flags &&& bit != 0

/-- `SubmessageHeader` from `src/messages/submessage_header.rs` (declared by
the spec: kind byte, flag byte, 16-bit length read in the endianness dictated
by the flag). -/
structure SubmessageHeader where
  submessage_id : SubmessageKind
  flags : SubmessageFlag
  submessage_length : Nat
deriving DecidableEq

/-- Read a submessage header from its 4 bytes. -/
def readSubmessageHeader (bs : List Nat) : Option SubmessageHeader :=
  match bs with
  | k :: f :: l0 :: l1 :: _ =>
      some ⟨SubmessageKind.ofByte k, ⟨f⟩,
            u16FromBytes (SubmessageFlag.endianness_flag ⟨f⟩) l0 l1⟩
  | _ => none

/-- RTPS message `Header` from `src/messages/header.rs` (declared by the spec:
4-byte magic, protocol version, vendor id, guid prefix, 20 bytes). -/
structure Header where
  protocol : List Nat
  protocol_version : ProtocolVersion_t
  vendor_id : VendorId_t
  guid_prefix : GuidPrefix_t
deriving DecidableEq

/-- `Header::valid()`: the magic is ASCII `RTPS` and the protocol version is
at least the minimum supported version 2.1 (lexicographic on major, minor). -/
def Header.valid (h : Header) : Bool :=
  h.protocol == [0x52, 0x54, 0x50, 0x53] &&
    (decide (2 < h.protocol_version.major) ||
      (h.protocol_version.major == 2 && decide (1 ≤ h.protocol_version.minor)))

/-- Read a message header: magic bytes, version, vendor id, guid prefix. -/
def readHeader (bs : List Nat) : Option (Header × List Nat) := do
  let (magic, r1) ← readBytes 4 bs
  let (pv, r2) ← readProtocolVersion r1
  let (vid, r3) ← readVendorId r2
  let (gp, r4) ← readGuidPrefix r3
  some (⟨magic, pv, vid, gp⟩, r4)

/-- `EntitySubmessage` from `src/messages/submessage.rs`: the notifications
the receiver emits (ACKNACK and HEARTBEAT carry their flag byte). -/
inductive EntitySubmessage where
  | AckNack (a : Rtps.AckNack) (flags : SubmessageFlag)
  | Gap (g : Rtps.Gap)
  | Heartbeat (h : Rtps.Heartbeat) (flags : SubmessageFlag)
  | HeartbeatFrag (h : Rtps.HeartbeatFrag)
  | NackFrag (n : Rtps.NackFrag)
deriving DecidableEq

/-- `Receiver` context from `src/messages/receiver.rs` lines 23-33. -/
structure Receiver where
  source_version : ProtocolVersion_t
  source_vendor_id : VendorId_t
  source_guid_prefix : GuidPrefix_t
  dest_guid_prefix : GuidPrefix_t
  unicast_reply_locator_list : List Locator_t
  multicast_reply_locator_list : List Locator_t
  have_timestamp : Bool
  timestamp : Time_t
deriving DecidableEq

/-- `Receiver::new` (`src/messages/receiver.rs` lines 36-55). -/
def Receiver.new (locator_kind : Int) : Receiver where
  source_version := ProtocolVersion_t.PROTOCOLVERSION
  source_vendor_id := VendorId_t.VENDOR_UNKNOWN
  source_guid_prefix := GuidPrefix_t.GUIDPREFIX_UNKNOWN
  dest_guid_prefix := GuidPrefix_t.GUIDPREFIX_UNKNOWN
  unicast_reply_locator_list :=
    [⟨locator_kind, Locator_t.LOCATOR_PORT_INVALID, Locator_t.LOCATOR_ADDRESS_INVALID⟩]
  multicast_reply_locator_list :=
    [⟨locator_kind, Locator_t.LOCATOR_PORT_INVALID, Locator_t.LOCATOR_ADDRESS_INVALID⟩]
  have_timestamp := false
  timestamp := Time_t.TIME_INVALID

/-- `DeserializationState` from `src/messages/receiver.rs` lines 58-61. -/
inductive DeserializationState where
  | ReadingHeader
  | ReadingSubmessage
deriving DecidableEq

/-- `MessageReceiver` from `src/messages/receiver.rs` lines 63-66. -/
structure MessageReceiver where
  receiver : Receiver
  state : DeserializationState
deriving DecidableEq

/-- `MessageReceiver::new`. -/
def MessageReceiver.new (locator_kind : Int) : MessageReceiver :=
  ⟨Receiver.new locator_kind, .ReadingHeader⟩

/-- Outcome of one `decode` call: an emitted notification (or none), an
`InvalidData` error, or a panic (`split_to`/`advance` past the end, or the
`unimplemented!()` arms for DATA and DATA_FRAG). -/
inductive DecodeResult where
  | ok (emitted : Option EntitySubmessage)
  | ioError
  | fatal
deriving DecidableEq

/-- One `decode` call: its result, the receiver machine afterwards, and the
bytes remaining in the caller's buffer. -/
structure DecodeOutcome where
  result : DecodeResult
  machine : MessageReceiver
  rest : List Nat
deriving DecidableEq

/-- The dispatch on `submessage_header.submessage_id`
(`src/messages/receiver.rs` lines 129-260).  `st` is the deserialization
state already chosen from the length-0 rule; no arm changes it. -/
def dispatchSubmessage (r : Receiver) (st : DeserializationState)
    (sh : SubmessageHeader) (bytes : List Nat) : DecodeOutcome :=
  match sh.submessage_id with
  | .ACKNACK =>
      match splitTo sh.submessage_length bytes with
      | none => ⟨.fatal, ⟨r, st⟩, bytes⟩
      | some (slice, rest) =>
          match readAckNack (SubmessageFlag.endianness_flag sh.flags) slice with
          | none => ⟨.ioError, ⟨r, st⟩, rest⟩
          | some p => ⟨.ok (some (.AckNack p.1 sh.flags)), ⟨r, st⟩, rest⟩
  | .DATA => ⟨.fatal, ⟨r, st⟩, bytes⟩
  | .DATA_FRAG => ⟨.fatal, ⟨r, st⟩, bytes⟩
  | .GAP =>
      match splitTo sh.submessage_length bytes with
      | none => ⟨.fatal, ⟨r, st⟩, bytes⟩
      | some (slice, rest) =>
          match readGap (SubmessageFlag.endianness_flag sh.flags) slice with
          | none => ⟨.ioError, ⟨r, st⟩, rest⟩
          | some p => ⟨.ok (some (.Gap p.1)), ⟨r, st⟩, rest⟩
  | .NACK_FRAG =>
      match splitTo sh.submessage_length bytes with
      | none => ⟨.fatal, ⟨r, st⟩, bytes⟩
      | some (slice, rest) =>
          match readNackFrag (SubmessageFlag.endianness_flag sh.flags) slice with
          | none => ⟨.ioError, ⟨r, st⟩, rest⟩
          | some p => ⟨.ok (some (.NackFrag p.1)), ⟨r, st⟩, rest⟩
  | .HEARTBEAT =>
      match splitTo sh.submessage_length bytes with
      | none => ⟨.fatal, ⟨r, st⟩, bytes⟩
      | some (slice, rest) =>
          match readHeartbeat (SubmessageFlag.endianness_flag sh.flags) slice with
          | none => ⟨.ioError, ⟨r, st⟩, rest⟩
          | some p => ⟨.ok (some (.Heartbeat p.1 sh.flags)), ⟨r, st⟩, rest⟩
  | .HEARTBEAT_FRAG =>
      match splitTo sh.submessage_length bytes with
      | none => ⟨.fatal, ⟨r, st⟩, bytes⟩
      | some (slice, rest) =>
          match readHeartbeatFrag (SubmessageFlag.endianness_flag sh.flags) slice with
          | none => ⟨.ioError, ⟨r, st⟩, rest⟩
          | some p => ⟨.ok (some (.HeartbeatFrag p.1)), ⟨r, st⟩, rest⟩
  | .INFO_SRC =>
      match splitTo sh.submessage_length bytes with
      | none => ⟨.fatal, ⟨r, st⟩, bytes⟩
      | some (slice, rest) =>
          match readInfoSource (SubmessageFlag.endianness_flag sh.flags) slice with
          | none => ⟨.ioError, ⟨r, st⟩, rest⟩
          | some p =>
              ⟨.ok none,
               ⟨{ r with
                    source_guid_prefix := p.1.2.2
                    source_version := p.1.1
                    source_vendor_id := p.1.2.1
                    unicast_reply_locator_list := [Locator_t.LOCATOR_INVALID]
                    multicast_reply_locator_list := [Locator_t.LOCATOR_INVALID]
                    have_timestamp := false }, st⟩, rest⟩
  | .INFO_DST =>
      match splitTo sh.submessage_length bytes with
      | none => ⟨.fatal, ⟨r, st⟩, bytes⟩
      | some (slice, rest) =>
          match readGuidPrefix slice with
          | none => ⟨.ioError, ⟨r, st⟩, rest⟩
          | some p =>
              ⟨.ok none,
               ⟨if p.1 ≠ GuidPrefix_t.GUIDPREFIX_UNKNOWN
                 then { r with dest_guid_prefix := p.1 } else r, st⟩, rest⟩
  | .INFO_REPLAY =>
      match splitTo sh.submessage_length bytes with
      | none => ⟨.fatal, ⟨r, st⟩, bytes⟩
      | some (slice, rest) =>
          match readLocatorListWithLength (SubmessageFlag.endianness_flag sh.flags) slice with
          | none => ⟨.ioError, ⟨r, st⟩, rest⟩
          | some (ul, consumed) =>
              if SubmessageFlag.is_flag_set sh.flags 0x02 then
                match readLocatorListWithLength (SubmessageFlag.endianness_flag sh.flags)
                    (slice.drop consumed) with
                | none =>
                    ⟨.ioError, ⟨{ r with unicast_reply_locator_list := ul }, st⟩, rest⟩
                | some (ml, _) =>
                    ⟨.ok none,
                     ⟨{ r with
                          unicast_reply_locator_list := ul
                          multicast_reply_locator_list := ml }, st⟩, rest⟩
              else
                ⟨.ok none,
                 ⟨{ r with
                      unicast_reply_locator_list := ul
                      multicast_reply_locator_list := [] }, st⟩, rest⟩
  | .INFO_TS =>
      if SubmessageFlag.is_flag_set sh.flags 0x02 then
        ⟨.ok none, ⟨{ r with have_timestamp := false }, st⟩, bytes⟩
      else
        match splitTo sh.submessage_length bytes with
        | none => ⟨.fatal, ⟨r, st⟩, bytes⟩
        | some (slice, rest) =>
            match readTime (SubmessageFlag.endianness_flag sh.flags) slice with
            | none => ⟨.ioError, ⟨r, st⟩, rest⟩
            | some p =>
                ⟨.ok none,
                 ⟨{ r with have_timestamp := true, timestamp := p.1 }, st⟩, rest⟩
  | .PAD =>
      if sh.submessage_length ≤ bytes.length then
        ⟨.ok none, ⟨r, st⟩, bytes.drop sh.submessage_length⟩
      else ⟨.fatal, ⟨r, st⟩, bytes⟩
  | .UNKNOWN _ => ⟨.ok none, ⟨r, st⟩, bytes⟩

/-- `MessageReceiver::decode` (`src/messages/receiver.rs` lines 81-264): in
`ReadingHeader`, split off and validate the 20-byte message header; in
`ReadingSubmessage`, split off the 4-byte submessage header, apply the
length-0 last-submessage rule, and dispatch on the kind. -/
def decode (m : MessageReceiver) (bytes : List Nat) : DecodeOutcome :=
  match m.state with
  | .ReadingHeader =>
      match splitTo 20 bytes with
      | none => ⟨.fatal, m, bytes⟩
      | some (slice, rest) =>
          match readHeader slice with
          | none => ⟨.ioError, m, rest⟩
          | some p =>
              if Header.valid p.1 then
                ⟨.ok none,
                 ⟨{ m.receiver with
                      source_guid_prefix := Header.guid_prefix p.1
                      source_version := Header.protocol_version p.1
                      source_vendor_id := Header.vendor_id p.1
                      have_timestamp := false },
                  .ReadingSubmessage⟩, rest⟩
              else ⟨.ioError, m, rest⟩
  | .ReadingSubmessage =>
      match splitTo 4 bytes with
      | none => ⟨.fatal, m, bytes⟩
      | some (slice, rest) =>
          match readSubmessageHeader slice with
          | none => ⟨.ioError, m, rest⟩
          | some sh =>
              dispatchSubmessage m.receiver
                (if sh.submessage_length = 0 ∧
                    sh.submessage_id ≠ SubmessageKind.INFO_TS ∧
                    sh.submessage_id ≠ SubmessageKind.PAD
                 then .ReadingHeader else .ReadingSubmessage)
                sh rest

/-- Iterate `decode`, collecting the per-call results. -/
def decodeN : Nat → MessageReceiver → List Nat →
    List DecodeResult × MessageReceiver × List Nat
  | 0, m, bs => ([], m, bs)
  | n + 1, m, bs =>
      let o := decode m bs
      let p := decodeN n o.machine o.rest
      (o.result :: p.1, p.2)

/-- No dispatch arm changes the deserialization state: the state chosen from
the length-0 rule is the state after the call, whatever the arm's outcome. -/
lemma dispatch_state_eq (r : Receiver) (st : DeserializationState)
    (sh : SubmessageHeader) (bytes : List Nat) :
    (dispatchSubmessage r st sh bytes).machine.state = st := by
  obtain ⟨id, flags, len⟩ := sh
  cases id <;> simp only [dispatchSubmessage] <;> (repeat' split) <;> rfl

/-- Splitting 4 bytes off a buffer that starts with four bytes. -/
lemma splitTo_cons4 (k f l0 l1 : Nat) (rest : List Nat) :
    splitTo 4 (k :: f :: l0 :: l1 :: rest) = some ([k, f, l0, l1], rest) := by
  unfold splitTo
  rw [if_pos (by simp)]
  rfl

/-- One `decode` step in `ReadingSubmessage` on a buffer holding at least the
4-byte submessage header: parse the header, choose the next state from the
length-0 rule, dispatch. -/
lemma decode_sub_eq (r : Receiver) (k f l0 l1 : Nat) (rest : List Nat) :
    decode ⟨r, .ReadingSubmessage⟩ (k :: f :: l0 :: l1 :: rest) =
      dispatchSubmessage r
        (if u16FromBytes (SubmessageFlag.endianness_flag ⟨f⟩) l0 l1 = 0 ∧
            SubmessageKind.ofByte k ≠ SubmessageKind.INFO_TS ∧
            SubmessageKind.ofByte k ≠ SubmessageKind.PAD
         then .ReadingHeader else .ReadingSubmessage)
        ⟨SubmessageKind.ofByte k, ⟨f⟩,
         u16FromBytes (SubmessageFlag.endianness_flag ⟨f⟩) l0 l1⟩ rest := by
  rw [decode, splitTo_cons4]
  rfl

/-- The 64-byte Wireshark-captured datagram of the
`wireshark_ack_nack_with_info_src` test (`src/messages/receiver.rs`
lines 589-620): message header, INFO_DST, ACKNACK. -/
def wiresharkDatagram : List Nat :=
  [0x52, 0x54, 0x50, 0x53, 0x02, 0x01, 0x01, 0x0F, 0x01, 0x0F, 0xBB, 0x1D, 0xDF, 0x2B,
   0x00, 0x00, 0x00, 0x00, 0x00, 0x00, 0x0E, 0x01, 0x0C, 0x00, 0x01, 0x0F, 0xBB, 0x1D,
   0xE6, 0x2B, 0x00, 0x00, 0x00, 0x00, 0x00, 0x00, 0x06, 0x01, 0x18, 0x00, 0x00, 0x00,
   0x04, 0xC7, 0x00, 0x00, 0x04, 0xC2, 0x00, 0x00, 0x00, 0x00, 0x00, 0x00, 0x00, 0x00,
   0x00, 0x00, 0x00, 0x00, 0x01, 0x00, 0x00, 0x00]

/-- claim C1: feeding a fresh `MessageReceiver` (state `ReadingHeader`,
context `Receiver::new` with the invalid locator kind) the 64-byte Wireshark
datagram and calling `decode` three times consumes the whole buffer and emits
exactly one entity-submessage notification: an AckNack with the SEDP built-in
subscriptions reader and writer ids, an empty sequence-number set with base 0,
count 1 and flag byte 0x01; afterwards the receiver context holds the
captured source and destination guid prefixes, source version 2.1 and source
vendor id [0x01, 0x0F]. -/
theorem wireshark_capture_decode :
    decodeN 3 (MessageReceiver.new Locator_t.LOCATOR_KIND_INVALID) wiresharkDatagram =
      ([DecodeResult.ok none, DecodeResult.ok none,
        DecodeResult.ok (some (EntitySubmessage.AckNack
          ⟨EntityId_t.ENTITYID_SEDP_BUILTIN_SUBSCRIPTIONS_READER,
           EntityId_t.ENTITYID_SEDP_BUILTIN_SUBSCRIPTIONS_WRITER,
           ⟨⟨0⟩, BitSetRef.new⟩, ⟨1⟩⟩ ⟨0x01⟩))],
       ⟨{ source_version := ProtocolVersion_t.PROTOCOLVERSION_2_1
          source_vendor_id := ⟨[0x01, 0x0F]⟩
          source_guid_prefix := ⟨[0x01, 0x0F, 0xBB, 0x1D, 0xDF, 0x2B, 0, 0, 0, 0, 0, 0]⟩
          dest_guid_prefix := ⟨[0x01, 0x0F, 0xBB, 0x1D, 0xE6, 0x2B, 0, 0, 0, 0, 0, 0]⟩
          unicast_reply_locator_list :=
            [⟨Locator_t.LOCATOR_KIND_INVALID, Locator_t.LOCATOR_PORT_INVALID,
              Locator_t.LOCATOR_ADDRESS_INVALID⟩]
          multicast_reply_locator_list :=
            [⟨Locator_t.LOCATOR_KIND_INVALID, Locator_t.LOCATOR_PORT_INVALID,
              Locator_t.LOCATOR_ADDRESS_INVALID⟩]
          have_timestamp := false
          timestamp := Time_t.TIME_INVALID },
        .ReadingSubmessage⟩,
       []) := by
  decide

/-- claim C2 counterexample: an INFO_TS submessage of declared length 4 whose
body fails to decode (a timestamp needs 8 bytes) makes `decode` return an
error, but the state machine stays in `ReadingSubmessage`: it does not reset
to `ReadingHeader` for the next call. -/
theorem body_error_no_reset_counterexample :
    (decode ⟨Receiver.new Locator_t.LOCATOR_KIND_INVALID, .ReadingSubmessage⟩
        [0x09, 0x01, 0x04, 0x00, 0x00, 0x00, 0x00, 0x00]).result = .ioError ∧
    (decode ⟨Receiver.new Locator_t.LOCATOR_KIND_INVALID, .ReadingSubmessage⟩
        [0x09, 0x01, 0x04, 0x00, 0x00, 0x00, 0x00, 0x00]).machine.state ≠
      .ReadingHeader := by
  decide

/-- claim C2 (amended): when `decode` in state `ReadingSubmessage` returns an
error, the state afterwards is `ReadingHeader` exactly when the submessage
header it read had length 0 and a kind other than INFO_TS and PAD; otherwise
the machine remains in `ReadingSubmessage` and the next call parses a
submessage header, not a message header. -/
theorem body_error_state (r : Receiver) (k f l0 l1 : Nat) (rest : List Nat)
    (herr : (decode ⟨r, .ReadingSubmessage⟩ (k :: f :: l0 :: l1 :: rest)).result =
      .ioError) :
    (decode ⟨r, .ReadingSubmessage⟩ (k :: f :: l0 :: l1 :: rest)).machine.state =
      if u16FromBytes (SubmessageFlag.endianness_flag ⟨f⟩) l0 l1 = 0 ∧
          SubmessageKind.ofByte k ≠ SubmessageKind.INFO_TS ∧
          SubmessageKind.ofByte k ≠ SubmessageKind.PAD
      then .ReadingHeader else .ReadingSubmessage := by
  rw [decode_sub_eq, dispatch_state_eq]

/-- Witness for `body_error_state`: an ACKNACK of length 4 with a truncated
body errors out and leaves the machine in `ReadingSubmessage`. -/
theorem body_error_state_witness :
    (decode ⟨Receiver.new Locator_t.LOCATOR_KIND_INVALID, .ReadingSubmessage⟩
        [0x06, 0x01, 0x04, 0x00, 0x00, 0x00, 0x00, 0x00]).result = .ioError ∧
    (decode ⟨Receiver.new Locator_t.LOCATOR_KIND_INVALID, .ReadingSubmessage⟩
        [0x06, 0x01, 0x04, 0x00, 0x00, 0x00, 0x00, 0x00]).machine.state =
      if u16FromBytes (SubmessageFlag.endianness_flag ⟨0x01⟩) 0x04 0x00 = 0 ∧
          SubmessageKind.ofByte 0x06 ≠ SubmessageKind.INFO_TS ∧
          SubmessageKind.ofByte 0x06 ≠ SubmessageKind.PAD
      then .ReadingHeader else .ReadingSubmessage :=
  ⟨by decide,
   body_error_state (Receiver.new Locator_t.LOCATOR_KIND_INVALID) 0x06 0x01 0x04 0x00
     [0x00, 0x00, 0x00, 0x00] (by decide)⟩

/-- claim C3: when `decode` in state `ReadingSubmessage` reads a 4-byte
submessage header with length field 0, the machine transitions to
`ReadingHeader` when the kind is neither INFO_TS nor PAD, and stays in
`ReadingSubmessage` when the kind is INFO_TS or PAD. -/
theorem length_zero_state_transition (r : Receiver) (k f l0 l1 : Nat) (rest : List Nat)
    (hlen : u16FromBytes (SubmessageFlag.endianness_flag ⟨f⟩) l0 l1 = 0) :
    (SubmessageKind.ofByte k ≠ SubmessageKind.INFO_TS →
      SubmessageKind.ofByte k ≠ SubmessageKind.PAD →
      (decode ⟨r, .ReadingSubmessage⟩ (k :: f :: l0 :: l1 :: rest)).machine.state =
        .ReadingHeader) ∧
    ((SubmessageKind.ofByte k = SubmessageKind.INFO_TS ∨
        SubmessageKind.ofByte k = SubmessageKind.PAD) →
      (decode ⟨r, .ReadingSubmessage⟩ (k :: f :: l0 :: l1 :: rest)).machine.state =
        .ReadingSubmessage) := by
  constructor
  · intro h1 h2
    rw [decode_sub_eq, dispatch_state_eq, if_pos ⟨hlen, h1, h2⟩]
  · intro h
    rw [decode_sub_eq, dispatch_state_eq, if_neg]
    intro hc
    rcases h with h | h
    · exact hc.2.1 h
    · exact hc.2.2 h

/-- Witness for `length_zero_state_transition`: a zero-length GAP header moves
the machine to `ReadingHeader`; a zero-length PAD header leaves it in
`ReadingSubmessage`. -/
theorem length_zero_state_transition_witness :
    (decode ⟨Receiver.new Locator_t.LOCATOR_KIND_INVALID, .ReadingSubmessage⟩
        [0x08, 0x01, 0x00, 0x00]).machine.state = .ReadingHeader ∧
    (decode ⟨Receiver.new Locator_t.LOCATOR_KIND_INVALID, .ReadingSubmessage⟩
        [0x01, 0x01, 0x00, 0x00]).machine.state = .ReadingSubmessage :=
  ⟨(length_zero_state_transition (Receiver.new Locator_t.LOCATOR_KIND_INVALID)
      0x08 0x01 0x00 0x00 [] (by decide)).1 (by decide) (by decide),
   (length_zero_state_transition (Receiver.new Locator_t.LOCATOR_KIND_INVALID)
      0x01 0x01 0x00 0x00 [] (by decide)).2 (Or.inr (by decide))⟩

/-- claim C9: an INFO_DST submessage (kind 0x0E, declared length 12) emits no
notification, consumes exactly its 12-byte body, overwrites the context's
destination guid prefix exactly when the parsed prefix is not
GUIDPREFIX_UNKNOWN, leaves every other receiver field unchanged, and keeps the
machine in `ReadingSubmessage`. -/
theorem info_dst_effect (r : Receiver) (f l0 l1 : Nat)
    (p0 p1 p2 p3 p4 p5 p6 p7 p8 p9 p10 p11 : Nat) (rest : List Nat)
    (hlen : u16FromBytes (SubmessageFlag.endianness_flag ⟨f⟩) l0 l1 = 12) :
    decode ⟨r, .ReadingSubmessage⟩
        (0x0E :: f :: l0 :: l1 :: p0 :: p1 :: p2 :: p3 :: p4 :: p5 :: p6 :: p7 ::
          p8 :: p9 :: p10 :: p11 :: rest) =
      ⟨.ok none,
       ⟨if (⟨[p0, p1, p2, p3, p4, p5, p6, p7, p8, p9, p10, p11]⟩ : GuidPrefix_t) ≠
            GuidPrefix_t.GUIDPREFIX_UNKNOWN
         then { r with
                  dest_guid_prefix :=
                    ⟨[p0, p1, p2, p3, p4, p5, p6, p7, p8, p9, p10, p11]⟩ }
         else r,
        .ReadingSubmessage⟩, rest⟩ := by
  rw [decode_sub_eq, hlen]
  rw [if_neg (by decide)]
  have hk : SubmessageKind.ofByte 0x0E = SubmessageKind.INFO_DST := by decide
  rw [hk]
  simp only [dispatchSubmessage]
  rw [show splitTo 12 (p0 :: p1 :: p2 :: p3 :: p4 :: p5 :: p6 :: p7 :: p8 :: p9 :: p10 ::
      p11 :: rest) = some ([p0, p1, p2, p3, p4, p5, p6, p7, p8, p9, p10, p11], rest) by
    unfold splitTo
    rw [if_pos (by simp)]
    rfl]
  rfl

/-- Witness for `info_dst_effect` at a little-endian INFO_DST carrying the
prefix of twelve 0x42 bytes on an otherwise fresh receiver. -/
theorem info_dst_effect_witness :
    decode ⟨Receiver.new Locator_t.LOCATOR_KIND_INVALID, .ReadingSubmessage⟩
        (0x0E :: 0x01 :: 0x0C :: 0x00 :: 0x42 :: 0x42 :: 0x42 :: 0x42 :: 0x42 :: 0x42 ::
          0x42 :: 0x42 :: 0x42 :: 0x42 :: 0x42 :: 0x42 :: ([] : List Nat)) =
      ⟨.ok none,
       ⟨if (⟨[0x42, 0x42, 0x42, 0x42, 0x42, 0x42, 0x42, 0x42, 0x42, 0x42, 0x42, 0x42]⟩ :
            GuidPrefix_t) ≠ GuidPrefix_t.GUIDPREFIX_UNKNOWN
         then { Receiver.new Locator_t.LOCATOR_KIND_INVALID with
                  dest_guid_prefix :=
                    ⟨[0x42, 0x42, 0x42, 0x42, 0x42, 0x42, 0x42, 0x42, 0x42, 0x42, 0x42,
                      0x42]⟩ }
         else Receiver.new Locator_t.LOCATOR_KIND_INVALID,
        .ReadingSubmessage⟩, []⟩ :=
  info_dst_effect (Receiver.new Locator_t.LOCATOR_KIND_INVALID) 0x01 0x0C 0x00
    0x42 0x42 0x42 0x42 0x42 0x42 0x42 0x42 0x42 0x42 0x42 0x42 [] (by decide)

end Rtps
